import Mathlib

/-!
Verification of the Tencent TTS command-line tool
(`skills/tencent-tts/scripts/tts.py`).

The embedding models:

- `pcm_to_wav` (tts.py lines 25-47): wrapping raw PCM bytes in a WAV
  container, with `struct.pack` modelled by `packLE16` / `packLE32`
  (which fail on out-of-range values, as `struct.pack` raises
  `struct.error`);
- `validate_text_length` (lines 50-60);
- `text_to_speech` (lines 63-140), up to the construction of the
  `TextToVoiceRequest` that is handed to the service client; the network
  call, the base64 decoding of the response and the file write are
  external effects outside the request-construction logic the
  properties below are about;
- `main_request` (lines 166-191): the CLI entry point's parameter
  resolution followed by its call to `text_to_speech`.

Environment variables are modelled by the `Env` structure; the numeric
variables hold the already-parsed integer (the result of `int(...)` on a
well-formed value, the surrounding glue being out of scope). Bytes are
modelled as natural numbers below 256 (every byte list produced here
satisfies that by construction).
-/

/-- Little-endian byte list of a 16-bit value, the payload produced by
`struct.pack` with format `<H`. -/
def le16bytes (n : Nat) : List Nat := [n % 256, n / 256 % 256]

/-- Little-endian byte list of a 32-bit value, the payload produced by
`struct.pack` with format `<I`. -/
def le32bytes (n : Nat) : List Nat :=
  [n % 256, n / 256 % 256, n / 65536 % 256, n / 16777216 % 256]

/-- Model of `struct.pack` with format `<H`: fails (raises
`struct.error`) unless the value fits in 16 bits. -/
def packLE16 (n : Nat) : Option (List Nat) :=
  if n < 65536 then some (le16bytes n) else none

/-- Model of `struct.pack` with format `<I`: fails (raises
`struct.error`) unless the value fits in 32 bits. -/
def packLE32 (n : Nat) : Option (List Nat) :=
  if n < 4294967296 then some (le32bytes n) else none

/-- Model of `pcm_to_wav` (tts.py lines 25-47).  The ASCII tags are
`RIFF = [82,73,70,70]`, `WAVE = [87,65,86,69]`, `fmt  = [102,109,116,32]`
and `data = [100,97,116,97]`.  The four value-dependent fields go
through `packLE32`, as in the source where `struct.pack` raises when a
value does not fit; the remaining packed fields are the constants 16, 1,
`channels = 1`, `block_align` and `bits_per_sample = 16`, which always
fit, so they are written as the bytes their packs always produce. -/
def pcm_to_wav (pcm_data : List Nat) (sample_rate : Nat) : Option (List Nat) :=
  let channels := 1
  let bits_per_sample := 16
  let byte_rate := sample_rate * channels * bits_per_sample / 8
  let block_align := channels * bits_per_sample / 8
  let data_size := pcm_data.length
  match packLE32 (36 + data_size), packLE32 sample_rate,
      packLE32 byte_rate, packLE32 data_size with
  | some sizeBytes, some srBytes, some brBytes, some dsBytes =>
      some ([82, 73, 70, 70] ++ sizeBytes
        ++ [87, 65, 86, 69] ++ [102, 109, 116, 32]
        ++ le32bytes 16 ++ le16bytes 1 ++ le16bytes channels
        ++ srBytes ++ brBytes
        ++ le16bytes block_align ++ le16bytes bits_per_sample
        ++ [100, 97, 116, 97] ++ dsBytes ++ pcm_data)
  | _, _, _, _ => none

/-- The header fields of a WAV container recovered by `parseWav`. -/
structure WavFields where
  totalSize : Nat
  channels : Nat
  sampleRate : Nat
  bitsPerSample : Nat
  dataSize : Nat
  payload : List Nat
deriving DecidableEq

/-- Splits a produced container back into header fields and payload:
bytes 4..7 are the declared total chunk size, bytes 22..23 the channel
count, bytes 24..27 the sample rate, bytes 34..35 the bits per sample,
bytes 40..43 the declared data-chunk size, and everything from byte 44
on is the payload; multi-byte integers are little-endian. -/
def parseWav (w : List Nat) : Option WavFields :=
  match w with
  | _r1 :: _r2 :: _r3 :: _r4 :: s1 :: s2 :: s3 :: s4
      :: _w1 :: _w2 :: _w3 :: _w4 :: _f1 :: _f2 :: _f3 :: _f4
      :: _fs1 :: _fs2 :: _fs3 :: _fs4 :: _fc1 :: _fc2
      :: ch1 :: ch2 :: sr1 :: sr2 :: sr3 :: sr4
      :: _br1 :: _br2 :: _br3 :: _br4 :: _ba1 :: _ba2 :: bp1 :: bp2
      :: _d1 :: _d2 :: _d3 :: _d4 :: ds1 :: ds2 :: ds3 :: ds4 :: payload =>
      some ⟨s1 + 256 * s2 + 65536 * s3 + 16777216 * s4,
        ch1 + 256 * ch2,
        sr1 + 256 * sr2 + 65536 * sr3 + 16777216 * sr4,
        bp1 + 256 * bp2,
        ds1 + 256 * ds2 + 65536 * ds3 + 16777216 * ds4,
        payload⟩
  | _ => none

/-- Model of the count `len(re.findall(..., text))` over the CJK Unified
Ideographs range U+4E00..U+9FFF (tts.py line 52). -/
def chinese_chars (text : String) : Nat :=
  text.data.countP (fun c => decide (0x4e00 ≤ c.toNat ∧ c.toNat ≤ 0x9fff))

/-- Model of the count `len(re.findall(..., text))` over the ASCII
letters `a-zA-Z` (tts.py line 53). -/
def english_letters (text : String) : Nat :=
  text.data.countP (fun c =>
    decide ((97 ≤ c.toNat ∧ c.toNat ≤ 122) ∨ (65 ≤ c.toNat ∧ c.toNat ≤ 90)))

/-- The `ValueError`s raised by the tool.  The two text-length errors
carry the measured count and the limit, which the source embeds in the
error message. -/
inductive TtsError where
  | missingCredentials
  | emptyInput
  | textTooLongCJK (count : Nat) (limit : Nat)
  | textTooLongLatin (count : Nat) (limit : Nat)
deriving DecidableEq

/-- Model of `validate_text_length` (tts.py lines 50-60). -/
def validate_text_length (text : String) : Except TtsError String :=
  if chinese_chars text > 150 then
    .error (.textTooLongCJK (chinese_chars text) 150)
  else if english_letters text > 500 then
    .error (.textTooLongLatin (english_letters text) 500)
  else
    .ok text

/-- Python truthiness of an optional string: `None` and the empty string
are falsy, every other string is truthy. -/
def pyTruthy : Option String → Bool
  | none => false
  | some s => !s.isEmpty

/-- Model of Python `a or b` on optional strings: keeps `a` when it is
truthy, otherwise yields `b` (used for `secret_id or os.environ.get(...)`,
tts.py lines 90-91). -/
def pyOr (a b : Option String) : Option String :=
  if pyTruthy a then a else b

/-- A character stripped by Python `str.strip()`: the characters with
the Unicode White_Space property. -/
def isPySpace (c : Char) : Bool :=
  decide (c.toNat = 32 ∨ (9 ≤ c.toNat ∧ c.toNat ≤ 13)
    ∨ (28 ≤ c.toNat ∧ c.toNat ≤ 31) ∨ c.toNat = 133 ∨ c.toNat = 160
    ∨ c.toNat = 0x1680 ∨ (0x2000 ≤ c.toNat ∧ c.toNat ≤ 0x200a)
    ∨ c.toNat = 0x2028 ∨ c.toNat = 0x2029 ∨ c.toNat = 0x202f
    ∨ c.toNat = 0x205f ∨ c.toNat = 0x3000)

/-- Model of Python `str.strip()`: remove leading and trailing
whitespace. -/
def pyStrip (s : String) : String :=
  ⟨((s.data.dropWhile isPySpace).reverse.dropWhile isPySpace).reverse⟩

/-- The environment variables read by the tool.  `none` means the
variable is unset; numeric variables hold the integer `int(...)` parses
from a well-formed value. -/
structure Env where
  tencent_secret_id : Option String
  tencent_secret_key : Option String
  tencent_region : Option String
  tencent_voice_type : Option Int
  tencent_fast_voice_type : Option String
  tencent_tts_speed : Option Int
  tencent_tts_language : Option Int
  tencent_tts_volume : Option Int
deriving DecidableEq

/-- The `TextToVoiceRequest` fields set by `text_to_speech` (tts.py
lines 113-126).  `FastVoiceType = none` models a request on which the
attribute was never assigned.  The `SessionId` (a fresh UUID) is an
opaque per-request token and is not modelled. -/
structure TextToVoiceRequest where
  Text : String
  ModelType : Int
  VoiceType : Int
  Codec : String
  SampleRate : Nat
  Speed : Int
  PrimaryLanguage : Int
  Volume : Int
  FastVoiceType : Option String
deriving DecidableEq

/-- Model of `text_to_speech` (tts.py lines 63-140) up to the
construction of the `TextToVoiceRequest`.  A returned `Except.error`
means the function raises before the service client is ever invoked;
`Except.ok req` is the request handed to `client.TextToVoice`.  The
network call, base64 decode, `pcm_to_wav` application and file write
that follow a successful call are external to the request-construction
logic modelled here. -/
def text_to_speech (env : Env) (text : String)
    (secret_id secret_key : Option String) (voice_type : Int)
    (fast_voice_type : Option String)
    (speed primary_language volume : Option Int) :
    Except TtsError TextToVoiceRequest :=
  let sid := pyOr secret_id env.tencent_secret_id
  let skey := pyOr secret_key env.tencent_secret_key
  if !pyTruthy sid || !pyTruthy skey then
    .error .missingCredentials
  else if (pyStrip text).isEmpty then
    .error .emptyInput
  else
    match validate_text_length (pyStrip text) with
    | .error e => .error e
    | .ok _ =>
        let speedV := match speed with
          | some s => s
          | none => env.tencent_tts_speed.getD 0
        let langV := match primary_language with
          | some l => l
          | none => env.tencent_tts_language.getD 1
        let volumeV := match volume with
          | some v => v
          | none => env.tencent_tts_volume.getD 0
        .ok { Text := pyStrip text
              ModelType := 1
              VoiceType := voice_type
              Codec := "pcm"
              SampleRate := 24000
              Speed := speedV
              PrimaryLanguage := langV
              Volume := volumeV
              FastVoiceType :=
                if pyTruthy fast_voice_type then fast_voice_type else none }

/-- Model of the CLI entry point `main` (tts.py lines 166-191): resolve
every parameter from the environment with its documented default, force
the voice type to 200000000 when a clone voice is configured (lines
177-179), and call `text_to_speech` with the resolved values. -/
def main_request (env : Env) (text : String) :
    Except TtsError TextToVoiceRequest :=
  let voice_type0 := env.tencent_voice_type.getD 502003
  let fast_voice_type := env.tencent_fast_voice_type
  let speed := env.tencent_tts_speed.getD 0
  let primary_language := env.tencent_tts_language.getD 1
  let volume := env.tencent_tts_volume.getD 0
  let voice_type :=
    if pyTruthy fast_voice_type then 200000000 else voice_type0
  text_to_speech env text none none voice_type fast_voice_type
    (some speed) (some primary_language) (some volume)

/-- An environment holding only credentials (used to evaluate the model
at concrete inputs). -/
def envCred : Env :=
  ⟨some "id", some "key", none, none, none, none, none, none⟩

/-- An environment with credentials and a configured clone voice. -/
def envClone : Env :=
  ⟨some "id", some "key", none, some 123, some "clone-a", none, none, none⟩

/-- An environment with credentials and the sentinel value 200000000
configured as the plain voice type, with no clone voice. -/
def envSentinel : Env :=
  ⟨some "id", some "key", none, some 200000000, none, none, none, none⟩

/-- An environment with credentials and every tunable variable set. -/
def envTuned : Env :=
  ⟨some "id", some "key", none, none, none, some 7, some 2, some (-3)⟩

/-- Parsing the container produced by `pcm_to_wav` recovers the declared
sizes, the fixed channel count and bit depth, the sample rate, and the
payload, whenever every packed value fits in its field. -/
theorem parseWav_pcm_to_wav (p : List Nat) (sr : Nat)
    (hL : 36 + p.length < 4294967296) (hsr : sr < 2147483648) :
    parseWav ((pcm_to_wav p sr).getD []) =
      some ⟨36 + p.length, 1, sr, 16, p.length, p⟩ := by
  have h1 : sr < 4294967296 := by omega
  have h2 : sr * 1 * 16 / 8 < 4294967296 := by omega
  have h3 : p.length < 4294967296 := by omega
  simp only [pcm_to_wav, packLE32, hL, h1, h2, h3, if_pos, if_true,
    le32bytes, le16bytes, List.cons_append, List.nil_append, Option.getD_some]
  simp only [parseWav, WavFields.mk.injEq]
  norm_num
  omega

/-- Under the same fit conditions, `pcm_to_wav` succeeds. -/
theorem pcm_to_wav_isSome (p : List Nat) (sr : Nat)
    (hL : 36 + p.length < 4294967296) (hsr : sr < 2147483648) :
    (pcm_to_wav p sr).isSome = true := by
  have h1 : sr < 4294967296 := by omega
  have h2 : sr * 1 * 16 / 8 < 4294967296 := by omega
  have h3 : p.length < 4294967296 := by omega
  simp only [pcm_to_wav, packLE32, hL, h1, h2, h3, if_pos, if_true,
    Option.isSome_some]

/-- The container is the 44-byte header followed by the payload. -/
theorem pcm_to_wav_length (p : List Nat) (sr : Nat)
    (hL : 36 + p.length < 4294967296) (hsr : sr < 2147483648) :
    ((pcm_to_wav p sr).getD []).length = 44 + p.length := by
  have h1 : sr < 4294967296 := by omega
  have h2 : sr * 1 * 16 / 8 < 4294967296 := by omega
  have h3 : p.length < 4294967296 := by omega
  simp only [pcm_to_wav, packLE32, hL, h1, h2, h3, if_pos, if_true,
    le32bytes, le16bytes, List.cons_append, List.nil_append, Option.getD_some]
  simp [List.length_cons]
  omega

/-- `validate_text_length` only ever raises the two text-length errors. -/
theorem validate_text_length_error_shape (t : String) (e : TtsError)
    (h : validate_text_length t = .error e) :
    e ≠ .missingCredentials ∧ e ≠ .emptyInput := by
  unfold validate_text_length at h
  split at h
  · rw [Except.error.injEq] at h
    subst h
    exact ⟨by simp, by simp⟩
  · split at h
    · rw [Except.error.injEq] at h
      subst h
      exact ⟨by simp, by simp⟩
    · simp at h

/-- Inversion: when `text_to_speech` reaches the service call, the
request it hands over is exactly the record built on tts.py
lines 113-126, with parameters resolved as on lines 101-107. -/
theorem text_to_speech_ok_fields (env : Env) (text : String)
    (sid sk : Option String) (vt : Int) (fvt : Option String)
    (sp pl vol : Option Int) (req : TextToVoiceRequest)
    (h : text_to_speech env text sid sk vt fvt sp pl vol = .ok req) :
    req = ⟨pyStrip text, 1, vt, "pcm", 24000,
      sp.getD (env.tencent_tts_speed.getD 0),
      pl.getD (env.tencent_tts_language.getD 1),
      vol.getD (env.tencent_tts_volume.getD 0),
      if pyTruthy fvt then fvt else none⟩ := by
  simp only [text_to_speech] at h
  split at h
  · simp at h
  · split at h
    · simp at h
    · split at h
      · simp at h
      · rw [Except.ok.injEq] at h
        subst h
        cases sp <;> cases pl <;> cases vol <;> rfl

/-- C1, counterexample: the coupling fails as stated.  Calling
`text_to_speech` directly with the clone identifier "clone-a" and the
explicitly passed plain voice identifier 123 builds a request whose
voice identifier is 123, not the sentinel 200000000; and the CLI with
the plain voice identifier configured to 200000000 and no clone
identifier builds a request carrying the sentinel without a clone
identifier. -/
theorem voice_clone_coupling_counterexample :
    text_to_speech envClone "hi" none none 123 (some "clone-a") none none none =
      .ok ⟨"hi", 1, 123, "pcm", 24000, 0, 1, 0, some "clone-a"⟩ ∧
    (123 : Int) ≠ 200000000 ∧
    main_request envSentinel "hi" =
      .ok ⟨"hi", 1, 200000000, "pcm", 24000, 0, 1, 0, none⟩ :=
  ⟨rfl, by decide, rfl⟩

/-- C1, amended: through the CLI entry point, a configured non-empty
clone identifier forces the request's voice identifier to the sentinel
200000000, whatever plain voice identifier is configured, and the clone
identifier is carried in the request. -/
theorem voice_clone_coupling_cli (env : Env) (text : String)
    (req : TextToVoiceRequest)
    (hf : pyTruthy env.tencent_fast_voice_type = true)
    (h : main_request env text = .ok req) :
    req.VoiceType = 200000000 ∧
      req.FastVoiceType = env.tencent_fast_voice_type := by
  simp only [main_request, hf, if_true] at h
  have hr := text_to_speech_ok_fields env text none none 200000000
    env.tencent_fast_voice_type (some (env.tencent_tts_speed.getD 0))
    (some (env.tencent_tts_language.getD 1))
    (some (env.tencent_tts_volume.getD 0)) req h
  rw [hr]
  exact ⟨rfl, by simp [hf]⟩

/-- C1, witness for the amended theorem at a concrete environment. -/
theorem voice_clone_coupling_cli_witness :
    pyTruthy envClone.tencent_fast_voice_type = true ∧
    main_request envClone "hi" =
      .ok ⟨"hi", 1, 200000000, "pcm", 24000, 0, 1, 0, some "clone-a"⟩ ∧
    ((⟨"hi", 1, 200000000, "pcm", 24000, 0, 1, 0, some "clone-a"⟩ :
        TextToVoiceRequest).VoiceType = 200000000 ∧
      (⟨"hi", 1, 200000000, "pcm", 24000, 0, 1, 0, some "clone-a"⟩ :
        TextToVoiceRequest).FastVoiceType = envClone.tencent_fast_voice_type) :=
  ⟨by decide, rfl,
    voice_clone_coupling_cli envClone "hi" _ (by decide) rfl⟩

/-- C2: for any payload and sample rate whose packed fields fit their
32-bit slots, the produced container declares total chunk size
`36 + L` in bytes 4..7 and data-chunk size `L` in bytes 40..43,
independently of the payload content; a zero-length payload yields a
valid 44-byte container with data size 0. -/
theorem wav_header_sizes (p : List Nat) (sr : Nat)
    (hL : 36 + p.length < 4294967296) (hsr : sr < 2147483648) :
    (parseWav ((pcm_to_wav p sr).getD [])).map WavFields.totalSize =
      some (36 + p.length) ∧
    (parseWav ((pcm_to_wav p sr).getD [])).map WavFields.dataSize =
      some p.length ∧
    (pcm_to_wav p sr).isSome = true ∧
    ((pcm_to_wav ([] : List Nat) sr).getD []).length = 44 ∧
    (parseWav ((pcm_to_wav ([] : List Nat) sr).getD [])).map
      WavFields.dataSize = some 0 := by
  have h0 : 36 + ([] : List Nat).length < 4294967296 := by simp
  rw [parseWav_pcm_to_wav p sr hL hsr, parseWav_pcm_to_wav [] sr h0 hsr]
  refine ⟨rfl, rfl, pcm_to_wav_isSome p sr hL hsr, ?_, rfl⟩
  rw [pcm_to_wav_length [] sr h0 hsr]
  rfl

/-- C2, witness at payload `[1,0,2,0]` and sample rate 24000. -/
theorem wav_header_sizes_witness :
    36 + ([1, 0, 2, 0] : List Nat).length < 4294967296 ∧
    24000 < 2147483648 ∧
    ((parseWav ((pcm_to_wav [1, 0, 2, 0] 24000).getD [])).map
        WavFields.totalSize = some (36 + ([1, 0, 2, 0] : List Nat).length) ∧
      (parseWav ((pcm_to_wav [1, 0, 2, 0] 24000).getD [])).map
        WavFields.dataSize = some ([1, 0, 2, 0] : List Nat).length ∧
      (pcm_to_wav [1, 0, 2, 0] 24000).isSome = true ∧
      ((pcm_to_wav ([] : List Nat) 24000).getD []).length = 44 ∧
      (parseWav ((pcm_to_wav ([] : List Nat) 24000).getD [])).map
        WavFields.dataSize = some 0) :=
  ⟨by decide, by decide, wav_header_sizes [1, 0, 2, 0] 24000 (by decide) (by decide)⟩

/-- C3: the container built from the 4-byte payload `[1, 0, 2, 0]` at
sample rate 24000 is exactly the 48-byte sequence
RIFF / 40 / WAVE / "fmt " / 16 / 1 / 1 / 24000 / 48000 / 2 / 16 /
"data" / 4 followed by the payload unchanged, and the text "hello" of
the end-to-end example counts 5 Latin letters and 0 CJK characters. -/
theorem wav_concrete_example :
    pcm_to_wav [1, 0, 2, 0] 24000 =
      some [82, 73, 70, 70, 40, 0, 0, 0, 87, 65, 86, 69, 102, 109, 116, 32,
        16, 0, 0, 0, 1, 0, 1, 0, 192, 93, 0, 0, 128, 187, 0, 0, 2, 0, 16, 0,
        100, 97, 116, 97, 4, 0, 0, 0, 1, 0, 2, 0] ∧
    english_letters "hello" = 5 ∧ chinese_chars "hello" = 0 :=
  ⟨rfl, by decide, by decide⟩

/-- C4: parsing the produced container recovers channel count 1, the
original sample rate, 16 bits per sample, and the byte-for-byte
original payload. -/
theorem wav_roundtrip (p : List Nat) (sr : Nat)
    (hL : 36 + p.length < 4294967296) (hsr : sr < 2147483648) :
    (parseWav ((pcm_to_wav p sr).getD [])).map WavFields.channels = some 1 ∧
    (parseWav ((pcm_to_wav p sr).getD [])).map WavFields.sampleRate = some sr ∧
    (parseWav ((pcm_to_wav p sr).getD [])).map WavFields.bitsPerSample =
      some 16 ∧
    (parseWav ((pcm_to_wav p sr).getD [])).map WavFields.payload = some p := by
  rw [parseWav_pcm_to_wav p sr hL hsr]
  exact ⟨rfl, rfl, rfl, rfl⟩

/-- C4, witness at payload `[7, 1]` and sample rate 8000. -/
theorem wav_roundtrip_witness :
    36 + ([7, 1] : List Nat).length < 4294967296 ∧
    8000 < 2147483648 ∧
    ((parseWav ((pcm_to_wav [7, 1] 8000).getD [])).map WavFields.channels =
        some 1 ∧
      (parseWav ((pcm_to_wav [7, 1] 8000).getD [])).map WavFields.sampleRate =
        some 8000 ∧
      (parseWav ((pcm_to_wav [7, 1] 8000).getD [])).map
        WavFields.bitsPerSample = some 16 ∧
      (parseWav ((pcm_to_wav [7, 1] 8000).getD [])).map WavFields.payload =
        some [7, 1]) :=
  ⟨by decide, by decide, wav_roundtrip [7, 1] 8000 (by decide) (by decide)⟩

/-- C9: the container encoder depends on nothing but its two inputs:
equal payloads and equal sample rates give byte-identical outputs. -/
theorem pcm_to_wav_deterministic (p1 p2 : List Nat) (sr1 sr2 : Nat)
    (hp : p1 = p2) (hsr : sr1 = sr2) :
    pcm_to_wav p1 sr1 = pcm_to_wav p2 sr2 := by
  rw [hp, hsr]

/-- C9, witness at payload `[1, 0]` and sample rate 24000. -/
theorem pcm_to_wav_deterministic_witness :
    ([1, 0] : List Nat) = [1, 0] ∧ (24000 : Nat) = 24000 ∧
    pcm_to_wav [1, 0] 24000 = pcm_to_wav [1, 0] 24000 :=
  ⟨rfl, rfl, pcm_to_wav_deterministic [1, 0] [1, 0] 24000 24000 rfl rfl⟩

/-- C5: `validate_text_length` fails exactly when the CJK-character
count exceeds 150 or the Latin-letter count exceeds 500 (either quota
alone suffices), and otherwise returns its input unchanged; characters
outside the two classes never contribute to either count. -/
theorem validate_text_length_iff (text : String) :
    (validate_text_length text = .ok text ↔
      chinese_chars text ≤ 150 ∧ english_letters text ≤ 500) ∧
    ((validate_text_length text).isOk = false ↔
      150 < chinese_chars text ∨ 500 < english_letters text) := by
  rcases Nat.lt_or_ge 150 (chinese_chars text) with hc | hc
  · have hv : validate_text_length text =
        .error (.textTooLongCJK (chinese_chars text) 150) := by
      unfold validate_text_length
      rw [if_pos hc]
    rw [hv]
    exact ⟨iff_of_false (by simp) (by omega),
      iff_of_true rfl (Or.inl hc)⟩
  · rcases Nat.lt_or_ge 500 (english_letters text) with he | he
    · have hv : validate_text_length text =
          .error (.textTooLongLatin (english_letters text) 500) := by
        unfold validate_text_length
        rw [if_neg (by omega), if_pos he]
      rw [hv]
      exact ⟨iff_of_false (by simp) (by omega),
        iff_of_true rfl (Or.inr he)⟩
    · have hv : validate_text_length text = .ok text := by
        unfold validate_text_length
        rw [if_neg (by omega), if_neg (by omega)]
      rw [hv]
      exact ⟨iff_of_true rfl ⟨by omega, by omega⟩,
        iff_of_false (by simp [Except.isOk, Except.toBool]) (by omega)⟩

set_option maxRecDepth 8192 in
/-- C6: exactly 150 CJK characters pass; 151 fail with measured count
151 and limit 150; exactly 500 Latin letters pass; 501 fail with
measured count 501 and limit 500. -/
theorem validate_text_length_boundary :
    validate_text_length (String.mk (List.replicate 150 '中')) =
      .ok (String.mk (List.replicate 150 '中')) ∧
    validate_text_length (String.mk (List.replicate 151 '中')) =
      .error (.textTooLongCJK 151 150) ∧
    validate_text_length (String.mk (List.replicate 500 'a')) =
      .ok (String.mk (List.replicate 500 'a')) ∧
    validate_text_length (String.mk (List.replicate 501 'a')) =
      .error (.textTooLongLatin 501 500) :=
  ⟨rfl, rfl, rfl, rfl⟩

/-- C7: with resolvable credentials, any text that is empty after
stripping leading and trailing whitespace is rejected as empty input;
the result is an error, so no request ever reaches the service. -/
theorem empty_text_rejected (env : Env) (text : String)
    (sid sk : Option String) (vt : Int) (fvt : Option String)
    (sp pl vol : Option Int)
    (hid : pyTruthy (pyOr sid env.tencent_secret_id) = true)
    (hkey : pyTruthy (pyOr sk env.tencent_secret_key) = true)
    (hempty : pyStrip text = "") :
    text_to_speech env text sid sk vt fvt sp pl vol = .error .emptyInput := by
  have he : ("" : String).isEmpty = true := rfl
  simp [text_to_speech, hid, hkey, hempty, he]

/-- C7, witness on the two-space text with credentials in the
environment. -/
theorem empty_text_rejected_witness :
    pyTruthy (pyOr none envCred.tencent_secret_id) = true ∧
    pyTruthy (pyOr none envCred.tencent_secret_key) = true ∧
    pyStrip "  " = "" ∧
    text_to_speech envCred "  " none none 502003 none none none none =
      .error .emptyInput :=
  ⟨by decide, by decide, by decide,
    empty_text_rejected envCred "  " none none 502003 none none none none
      (by decide) (by decide) (by decide)⟩

/-- C8: `text_to_speech` fails with the missing-credentials error
exactly when the identifier and the secret cannot both be resolved from
the explicit argument or the environment; the result being an error,
the service client is never handed a request. -/
theorem missing_credentials_iff (env : Env) (text : String)
    (sid sk : Option String) (vt : Int) (fvt : Option String)
    (sp pl vol : Option Int) :
    text_to_speech env text sid sk vt fvt sp pl vol =
        .error .missingCredentials ↔
      ¬(pyTruthy (pyOr sid env.tencent_secret_id) = true ∧
        pyTruthy (pyOr sk env.tencent_secret_key) = true) := by
  cases h1 : pyTruthy (pyOr sid env.tencent_secret_id) <;>
    cases h2 : pyTruthy (pyOr sk env.tencent_secret_key) <;>
      simp only [text_to_speech, h1, h2] <;> simp
  split
  · simp
  · split
    · rename_i e heq
      have := validate_text_length_error_shape _ e heq
      simp [this.1]
    · simp

/-- C10: speed, volume and primary language are resolved with
precedence explicit argument, then environment value, then the fixed
defaults 0, 0 and 1 (`Option.getD` chains state exactly that
precedence), and the CLI resolves the plain voice identifier to 502003
when neither a configured voice identifier nor a clone identifier is
present. -/
theorem parameter_resolution_precedence
    (env : Env) (text : String) (sid sk : Option String) (vt : Int)
    (fvt : Option String) (sp pl vol : Option Int)
    (req : TextToVoiceRequest)
    (h : text_to_speech env text sid sk vt fvt sp pl vol = .ok req)
    (env2 : Env) (text2 : String) (req2 : TextToVoiceRequest)
    (hf2 : pyTruthy env2.tencent_fast_voice_type = false)
    (hv2 : env2.tencent_voice_type = none)
    (h2 : main_request env2 text2 = .ok req2) :
    req.Speed = sp.getD (env.tencent_tts_speed.getD 0) ∧
    req.Volume = vol.getD (env.tencent_tts_volume.getD 0) ∧
    req.PrimaryLanguage = pl.getD (env.tencent_tts_language.getD 1) ∧
    req2.VoiceType = 502003 := by
  have hr := text_to_speech_ok_fields env text sid sk vt fvt sp pl vol req h
  simp only [main_request, hf2, hv2, Bool.false_eq_true, if_false,
    Option.getD_none] at h2
  have hr2 := text_to_speech_ok_fields env2 text2 none none 502003
    env2.tencent_fast_voice_type (some (env2.tencent_tts_speed.getD 0))
    (some (env2.tencent_tts_language.getD 1))
    (some (env2.tencent_tts_volume.getD 0)) req2 h2
  rw [hr, hr2]
  exact ⟨rfl, rfl, rfl, rfl⟩

/-- C10, witness: explicit arguments win where given, the environment
value is used where the argument is absent, and the CLI default voice
identifier is 502003. -/
theorem parameter_resolution_precedence_witness :
    text_to_speech envTuned "hi" none none 1 none none (some 5) (some 9) =
      .ok ⟨"hi", 1, 1, "pcm", 24000, 7, 5, 9, none⟩ ∧
    pyTruthy envCred.tencent_fast_voice_type = false ∧
    envCred.tencent_voice_type = none ∧
    main_request envCred "hi" =
      .ok ⟨"hi", 1, 502003, "pcm", 24000, 0, 1, 0, none⟩ ∧
    ((⟨"hi", 1, 1, "pcm", 24000, 7, 5, 9, none⟩ :
        TextToVoiceRequest).Speed =
        (none : Option Int).getD (envTuned.tencent_tts_speed.getD 0) ∧
      (⟨"hi", 1, 1, "pcm", 24000, 7, 5, 9, none⟩ :
        TextToVoiceRequest).Volume =
        (some (9 : Int)).getD (envTuned.tencent_tts_volume.getD 0) ∧
      (⟨"hi", 1, 1, "pcm", 24000, 7, 5, 9, none⟩ :
        TextToVoiceRequest).PrimaryLanguage =
        (some (5 : Int)).getD (envTuned.tencent_tts_language.getD 1) ∧
      (⟨"hi", 1, 502003, "pcm", 24000, 0, 1, 0, none⟩ :
        TextToVoiceRequest).VoiceType = 502003) :=
  ⟨rfl, by decide, by decide, rfl,
    parameter_resolution_precedence envTuned "hi" none none 1 none none
      (some 5) (some 9) _ rfl envCred "hi" _ (by decide) (by decide) rfl⟩
